import Mathlib

/-!
Verification development for the gas-phase kinetics rate-evaluation core
(`src/kinetics/GasKinetics.cpp`).

The embedding models IEEE doubles as exact rationals (`ℚ`); transcendental
library functions (`exp`, `log`, `log10`) and every external collaborator
(thermodynamic property backend, stoichiometry engine, rate-law evaluator
buckets, third-body calculators and the falloff blending-function library)
are abstract function parameters collected in `Ext`, since their code is
outside this repository slice.  The per-reaction static data installed at
construction time is collected in `ReactionSet`, and the mutable cached
evaluation state owned by the core is `GasState`.
-/

namespace Cantera

/-- The overflow ceiling used by `updateKc` (1.0e300, `BigNumber` in the
source), written as an explicit numeral. -/
def BigNumber : ℚ := 1000000000000000000000000000000000000000000000000000000000000000000000000000000000000000000000000000000000000000000000000000000000000000000000000000000000000000000000000000000000000000000000000000000000000000000000000000000000000000000000000000000000000000000000000000000000000000000000000000000000000

/-- The small positive guard against division by zero used when forming the
reduced pressure (1.0e-300, `SmallNumber` in the source). -/
def SmallNumber : ℚ := 1 / 1000000000000000000000000000000000000000000000000000000000000000000000000000000000000000000000000000000000000000000000000000000000000000000000000000000000000000000000000000000000000000000000000000000000000000000000000000000000000000000000000000000000000000000000000000000000000000000000000000000000000

/-- Modelled from the spec: the finiteness test used by `AssertFinite`
(whose definition is not part of this repository slice).  Doubles are
modelled as rationals, so infinities and NaNs are represented by magnitudes
at or beyond the overflow ceiling. -/
def finB (x : ℚ) : Bool := decide (-BigNumber < x ∧ x < BigNumber)

/-- Procedure names appearing in raised errors. -/
inductive ProcName where
  | updateROP
  | processFalloffReactions
  | setJacobianSettings
  | modifyReaction
  | addReaction
  | fwdRateConstants_ddT
  | fwdRatesOfProgress_ddT
  | revRatesOfProgress_ddT
  | netRatesOfProgress_ddT
  | fwdRatesOfProgress_ddC
  | revRatesOfProgress_ddC
  | netRatesOfProgress_ddC
  deriving DecidableEq

/-- Names of the dense vectors that can fail the finiteness checks. -/
inductive VecName where
  | rfn
  | ropf
  | ropr
  | pr
  deriving DecidableEq

/-- Fatal errors raised by the core (thrown exceptions in the source).
`notFinite proc vec idx` models the `AssertFinite` message naming the
offending vector and the index in it; `legacyUnsupported` models the
`CanteraError` with message "Not supported for legacy (CTI/XML) input
format."; `notImplemented` models `NotImplementedError`;
`unknownReactionType` models the unknown-reaction-type `CanteraError`. -/
inductive CtErr where
  | notFinite (proc : ProcName) (vec : VecName) (idx : ℕ)
  | notImplemented (proc : ProcName)
  | legacyUnsupported (proc : ProcName)
  | unknownReactionType (proc : ProcName)
  deriving DecidableEq

/-- Static per-reaction data of the installed reaction collection:
reaction count, reversibility flags, net mole change `m_dn`, perturbation
multipliers `m_perturb`, membership masks for the different rate-evaluator
paths, the legacy falloff bookkeeping (`m_fallindx`, reaction sub-types,
work-array size), the third-body masks and index maps, and the list
`m_legacy` of reactions installed through the deprecated path. -/
structure ReactionSet where
  n : ℕ
  reversible : ℕ → Bool
  dn : ℕ → ℚ
  perturb : ℕ → ℚ
  isPlainRate : ℕ → Bool
  isBulk : ℕ → Bool
  isPlog : ℕ → Bool
  isCheb : ℕ → Bool
  nPlog : ℕ
  nCheb : ℕ
  nFall : ℕ
  fallWorkSize : ℕ
  fallindx : ℕ → ℕ
  isFalloffLegacy : ℕ → Bool
  hasTB : ℕ → Bool
  n3b : ℕ
  tb3indx : ℕ → ℕ
  legacy : List ℕ

/-- The thermodynamic state provider (`ThermoPhase`, external): current
temperature, pressure, standard concentration, `RT`, standard chemical
potentials, activity and physical concentrations, molar density, the
phase-type test used by `processConcentrations_ddT`, and the molar density
observed after transiently perturbing the state to `T*(1+dt)` at fixed
pressure. -/
structure Thermo where
  T : ℚ
  P : ℚ
  standConc : ℚ
  RT : ℚ
  grt : ℕ → ℚ
  actConc : ℕ → ℚ
  physConc : ℕ → ℚ
  ctot : ℚ
  isIdealGas : Bool
  ctotPerturbed : ℚ → ℚ

/-- External collaborators, modelled from the spec as abstract evaluators:
the transcendental math functions, the rate-law evaluator buckets
(`m_rates`, the falloff low/high limit buckets, the `MultiBulkRate`
evaluators, PLOG and Chebyshev buckets), the falloff blending-function
library (`m_falloffn`), the stoichiometry engine (reaction deltas,
concentration-power products, scaling and sparse-Jacobian operators), the
third-body concentration calculators, the rate-derivative hooks, and the
transient thermodynamic perturbation used by finite differencing. -/
structure Ext where
  exp : ℚ → ℚ
  log : ℚ → ℚ
  log10 : ℚ → ℚ
  ratesEval : ℚ → ℚ → ℕ → ℚ
  fallLowEval : ℚ → ℚ → ℕ → ℚ
  fallHighEval : ℚ → ℚ → ℕ → ℚ
  falloffTempWork : ℚ → ℕ → ℚ
  blendOne : ℕ → ℚ → (ℕ → ℚ) → ℚ
  bulkEval : ℚ → ℚ → ℕ → ℚ
  plogEval : ℚ → ℚ → ℚ → ℕ → ℚ
  chebEval : ℚ → ℚ → ℚ → ℕ → ℚ
  delta : (ℕ → ℚ) → ℕ → ℚ
  multiConcmEval : (ℕ → ℚ) → ℚ → ℕ → ℚ
  concm3bEval : (ℕ → ℚ) → ℚ → ℕ → ℚ
  fallConcmEval : (ℕ → ℚ) → ℚ → ℕ → ℚ
  reactantMult : (ℕ → ℚ) → ℕ → ℚ
  revProductMult : (ℕ → ℚ) → ℕ → ℚ
  reactantScale : (ℕ → ℚ) → (ℕ → ℚ) → ℕ → ℚ
  revProductScale : (ℕ → ℚ) → (ℕ → ℚ) → ℕ → ℚ
  procDdT : (ℕ → ℚ) → (ℕ → ℚ) → ℚ → ℕ → ℚ
  procDdM : (ℕ → ℚ) → (ℕ → ℚ) → ℚ → ℕ → ℚ
  scaleOrderTB : (ℕ → ℚ) → (ℕ → ℚ) → ℕ → ℚ
  reactantJac : (ℕ → ℚ) → (ℕ → ℚ) → ℕ → ℕ → ℚ
  revProductJac : (ℕ → ℚ) → (ℕ → ℚ) → ℕ → ℕ → ℚ
  tbJac : (ℕ → ℚ) → ℕ → ℕ → ℚ
  thPerturb : ℚ → Thermo

/-- The full static context: the installed reaction collection plus the
external collaborators. -/
structure Ctx where
  rs : ReactionSet
  ext : Ext

/-- The mutable cached evaluation state owned by the core (the data members
of `GasKinetics` that the evaluation functions read and write), plus the
internal last-seen state of the external `MultiBulkRate` buckets
(`bulk_lastT`, `bulk_lastP`, modelled from the spec: a bucket reports
"unchanged" when the state it sees did not change) and the pressures most
recently stored by the PLOG/Chebyshev `update_C` hooks. -/
@[ext]
structure GasState where
  m_temp : ℚ
  m_pres : ℚ
  m_logStandConc : ℚ
  m_rfn : ℕ → ℚ
  m_rfn_low : ℕ → ℚ
  m_rfn_high : ℕ → ℚ
  falloff_work : ℕ → ℚ
  m_rkcn : ℕ → ℚ
  m_concm : ℕ → ℚ
  concm_3b_values : ℕ → ℚ
  concm_falloff_values : ℕ → ℚ
  m_act_conc : ℕ → ℚ
  m_phys_conc : ℕ → ℚ
  m_ropf : ℕ → ℚ
  m_ropr : ℕ → ℚ
  m_ropnet : ℕ → ℚ
  m_ROP_ok : Bool
  m_logP_plog : ℚ
  m_log10P_cheb : ℚ
  bulk_lastT : ℚ
  bulk_lastP : ℚ
  m_jac_const_pressure : Bool
  m_jac_mole_fractions : Bool
  m_jac_skip_third_bodies : Bool
  m_jac_skip_falloff : Bool
  m_jac_rtol_deltaT : ℚ
  m_jac_atol_deltaT : ℚ

/-- The vector written into `m_rkcn` by `GasKinetics::updateKc` when the
member `m_logStandConc` holds `logSC`: fill with zeros, let the
stoichiometry engine write `ΔG°` for every reversible reaction
(`getRevReactionDelta`), then overwrite every reversible entry with
`min(exp(ΔG°/RT − Δn·log C°), BigNumber)` and force every irreversible
entry to zero.  `m_revindex` is the list of reversible reaction indices and
`m_irrev` the list of irreversible ones, so the loops are rendered as masks
over the reversibility flag. -/
def rkcnFun (C : Ctx) (th : Thermo) (logSC : ℚ) : ℕ → ℚ :=
  let rkcn0 : ℕ → ℚ := fun _ => 0
  let rkcn1 : ℕ → ℚ := fun i =>
    if i < C.rs.n ∧ C.rs.reversible i = true then C.ext.delta th.grt i else rkcn0 i
  let rrt : ℚ := 1 / th.RT
  let rkcn2 : ℕ → ℚ := fun i =>
    if i < C.rs.n ∧ C.rs.reversible i = true then
      min (C.ext.exp (rkcn1 i * rrt - C.rs.dn i * logSC)) BigNumber
    else rkcn1 i
  fun i => if i < C.rs.n ∧ C.rs.reversible i = false then 0 else rkcn2 i

/-- `GasKinetics::updateKc`: recompute the reverse-rate multipliers from the
standard chemical potentials at the current `m_logStandConc`. -/
def updateKc (C : Ctx) (th : Thermo) (s : GasState) : GasState :=
  { s with m_rkcn := rkcnFun C th s.m_logStandConc }

/-- `GasKinetics::update_rates_T`: refresh `m_logStandConc`; if the
temperature changed, re-evaluate the legacy Arrhenius bucket `m_rates`, the
legacy falloff limit buckets, the falloff temperature work array, and the
equilibrium-constant multipliers (`updateKc`); query the `MultiBulkRate`
evaluators, which overwrite their portion of `m_rfn` only when they report
a change; if temperature or pressure changed, re-evaluate the legacy PLOG
and Chebyshev buckets; finally store the current `(T, P)` in the cache
sentinels `m_temp`, `m_pres`.

The body is rendered field-by-field: each cached field's new value is
guarded by the condition of the source branch that writes it, with the
writes to `m_rfn` layered in source order (Arrhenius bucket, then bulk
evaluators, then PLOG, then Chebyshev — later writers take precedence on
their masks).  `m_ROP_ok` is cleared when any branch that clears it runs;
the bulk buckets' own last-seen state is refreshed exactly when they report
a change. -/
def update_rates_T (C : Ctx) (th : Thermo) (s : GasState) : GasState :=
  let T := th.T
  let P := th.P
  let logT := C.ext.log T
  { s with
    m_logStandConc := C.ext.log th.standConc,
    m_rfn := fun i =>
      let a := if T ≠ s.m_temp ∧ i < C.rs.n ∧ C.rs.isPlainRate i = true
               then C.ext.ratesEval T logT i else s.m_rfn i
      let b := if (T ≠ s.bulk_lastT ∨ P ≠ s.bulk_lastP) ∧ i < C.rs.n ∧ C.rs.isBulk i = true
               then C.ext.bulkEval T P i else a
      let c := if (T ≠ s.m_temp ∨ P ≠ s.m_pres) ∧ 0 < C.rs.nPlog
                  ∧ i < C.rs.n ∧ C.rs.isPlog i = true
               then C.ext.plogEval T logT s.m_logP_plog i else b
      if (T ≠ s.m_temp ∨ P ≠ s.m_pres) ∧ 0 < C.rs.nCheb
         ∧ i < C.rs.n ∧ C.rs.isCheb i = true
      then C.ext.chebEval T logT s.m_log10P_cheb i else c,
    m_rfn_low := fun i =>
      if T ≠ s.m_temp ∧ i < C.rs.nFall then C.ext.fallLowEval T logT i else s.m_rfn_low i,
    m_rfn_high := fun i =>
      if T ≠ s.m_temp ∧ i < C.rs.nFall then C.ext.fallHighEval T logT i else s.m_rfn_high i,
    falloff_work := fun i =>
      if T ≠ s.m_temp ∧ i < C.rs.fallWorkSize then C.ext.falloffTempWork T i
      else s.falloff_work i,
    m_rkcn := if T ≠ s.m_temp then rkcnFun C th (C.ext.log th.standConc) else s.m_rkcn,
    m_ROP_ok :=
      if T ≠ s.m_temp ∨ (T ≠ s.bulk_lastT ∨ P ≠ s.bulk_lastP)
         ∨ ((T ≠ s.m_temp ∨ P ≠ s.m_pres) ∧ (0 < C.rs.nPlog ∨ 0 < C.rs.nCheb))
      then false else s.m_ROP_ok,
    bulk_lastT := if T ≠ s.bulk_lastT ∨ P ≠ s.bulk_lastP then T else s.bulk_lastT,
    bulk_lastP := if T ≠ s.bulk_lastT ∨ P ≠ s.bulk_lastP then P else s.bulk_lastP,
    m_pres := P,
    m_temp := T }

/-- The legacy three-body work values after `m_3b_concm.update`. -/
def vals3bFun (C : Ctx) (th : Thermo) (old : ℕ → ℚ) : ℕ → ℚ := fun i =>
  if i < C.rs.n3b then C.ext.concm3bEval th.physConc th.ctot i else old i

/-- The legacy falloff work values after `m_falloff_concm.update`. -/
def valsFallFun (C : Ctx) (th : Thermo) (old : ℕ → ℚ) : ℕ → ℚ := fun i =>
  if i < C.rs.nFall then C.ext.fallConcmEval th.physConc th.ctot i else old i

/-- The dense effective third-body concentration vector `m_concm` after
`update_rates_C`: the batched `m_multi_concm.update` writes the reactions
it owns, then the legacy three-body and falloff calculators copy their work
values into `m_concm` at their stored reaction indices. -/
def concmFun (C : Ctx) (th : Thermo) (s : GasState) : ℕ → ℚ :=
  let c1 : ℕ → ℚ := fun j =>
    if j < C.rs.n ∧ C.rs.hasTB j = true then C.ext.multiConcmEval th.physConc th.ctot j
    else s.m_concm j
  let c2 : ℕ → ℚ := fun j =>
    match (List.range C.rs.n3b).find? (fun i => C.rs.tb3indx i == j) with
    | some i => vals3bFun C th s.concm_3b_values i
    | none => c1 j
  fun j =>
    match (List.range C.rs.nFall).find? (fun i => C.rs.fallindx i == j) with
    | some i => valsFallFun C th s.concm_falloff_values i
    | none => c2 j

/-- `GasKinetics::update_rates_C`: fetch activity and physical
concentrations, refresh the batched and legacy third-body work arrays and
the dense `m_concm`, store the log-pressures for the legacy PLOG/Chebyshev
buckets, and invalidate the rates of progress. -/
def update_rates_C (C : Ctx) (th : Thermo) (s : GasState) : GasState :=
  { s with
    m_act_conc := th.actConc,
    m_phys_conc := th.physConc,
    m_concm := concmFun C th s,
    concm_3b_values := vals3bFun C th s.concm_3b_values,
    concm_falloff_values := valsFallFun C th s.concm_falloff_values,
    m_logP_plog := if 0 < C.rs.nPlog then C.ext.log th.P else s.m_logP_plog,
    m_log10P_cheb := if 0 < C.rs.nCheb then C.ext.log10 th.P else s.m_log10P_cheb,
    m_ROP_ok := false }

/-- The reduced pressure of falloff reaction `i` (a sub-index into the
legacy falloff bookkeeping):
`pr[i] = concm_falloff_values[i] * m_rfn_low[i] / (m_rfn_high[i] + SmallNumber)`. -/
def prVal (C : Ctx) (s : GasState) (i : ℕ) : ℚ :=
  s.concm_falloff_values i * s.m_rfn_low i / (s.m_rfn_high i + SmallNumber)

/-- The first falloff sub-index whose reduced pressure fails the
finiteness check, if any. -/
def prFirstBad (C : Ctx) (s : GasState) : Option ℕ :=
  (List.range C.rs.nFall).find? (fun i => ! finB (prVal C s i))

/-- The scratch vector left in `m_ropr` by `processFalloffReactions`: the
blending-curve evaluation of the reduced pressure (`pr_to_falloff`,
supplied by the external falloff function library) scaled by the
high-pressure limit for falloff reactions and by the low-pressure limit
for chemically-activated reactions.  Entries beyond the falloff count keep
the previous `m_ropr` contents. -/
def fallScratch (C : Ctx) (s : GasState) : ℕ → ℚ := fun i =>
  if i < C.rs.nFall then
    if C.rs.isFalloffLegacy i = true then
      C.ext.blendOne i (prVal C s i) s.falloff_work * s.m_rfn_high i
    else
      C.ext.blendOne i (prVal C s i) s.falloff_work * s.m_rfn_low i
  else s.m_ropr i

/-- Overwrite the falloff reactions' entries of the forward-rate buffer
with the blended effective rate constants (`ropf[m_fallindx[i]] = pr[i]`). -/
def applyFalloff (C : Ctx) (s : GasState) (ropf : ℕ → ℚ) : ℕ → ℚ := fun j =>
  match (List.range C.rs.nFall).find? (fun i => C.rs.fallindx i == j) with
  | some i => fallScratch C s i
  | none => ropf j

/-- `GasKinetics::processFalloffReactions`: compute the reduced pressures
into the `m_ropr` scratch space, abort with an `AssertFinite` error naming
`pr` and the offending index if one is not finite, evaluate the installed
blending curves, scale by the appropriate limit rate constant, and write
the results into the forward-rate buffer at the falloff reaction indices. -/
def processFalloffReactions (C : Ctx) (s : GasState) (ropf : ℕ → ℚ) :
    Except CtErr (GasState × (ℕ → ℚ)) :=
  match prFirstBad C s with
  | some i => .error (.notFinite .processFalloffReactions .pr i)
  | none => .ok ({ s with m_ropr := fallScratch C s }, applyFalloff C s ropf)

/-- `GasKinetics::processFwdRateCoefficients`: run the concentration and
temperature updates, copy `m_rfn` into the working buffer, let the falloff
processing overwrite the falloff entries when legacy falloff reactions are
present, and scale every entry by the perturbation multiplier. -/
def processFwdRateCoefficients (C : Ctx) (th : Thermo) (s : GasState) :
    Except CtErr (GasState × (ℕ → ℚ)) :=
  let s1 := update_rates_T C th (update_rates_C C th s)
  match (if 0 < C.rs.nFall then processFalloffReactions C s1 s1.m_rfn
         else .ok (s1, s1.m_rfn)) with
  | .error e => .error e
  | .ok p =>
      .ok (p.1, fun i => if i < C.rs.n then p.2 i * C.rs.perturb i else p.2 i)

/-- `GasKinetics::processThirdBodies`: multiply the rate-of-progress buffer
by the enhanced three-body concentrations of the legacy three-body
reactions, then by the dense effective third-body concentrations for the
reactions owned by the batched calculator. -/
def processThirdBodies (C : Ctx) (s : GasState) (rop : ℕ → ℚ) : ℕ → ℚ :=
  let rop1 : ℕ → ℚ := fun j =>
    match (List.range C.rs.n3b).find? (fun i => C.rs.tb3indx i == j) with
    | some i => rop j * s.concm_3b_values i
    | none => rop j
  fun j =>
    if j < C.rs.n ∧ C.rs.hasTB j = true then rop1 j * s.m_concm j else rop1 j

/-- `GasKinetics::processEquilibriumConstants`: multiply every entry of the
buffer by the cached reciprocal equilibrium constant `m_rkcn`. -/
def processEquilibriumConstants (C : Ctx) (s : GasState) (rop : ℕ → ℚ) : ℕ → ℚ :=
  fun i => if i < C.rs.n then rop i * s.m_rkcn i else rop i

/-- `GasKinetics::updateROP`: forward coefficients, third bodies, the copy
of the forward buffer that seeds the reverse buffer, the reactant-side
concentration-power products, the equilibrium-constant multipliers and
product-side powers for reversible reactions, the net rates of progress,
and the trailing finiteness checks over `m_rfn`, `m_ropf` and `m_ropr`. -/
def updateROP (C : Ctx) (th : Thermo) (s : GasState) : Except CtErr GasState :=
  match processFwdRateCoefficients C th s with
  | .error e => .error e
  | .ok p =>
      let s2 := p.1
      let ropfB := processThirdBodies C s2 p.2
      let roprA : ℕ → ℚ := ropfB
      let ropfC : ℕ → ℚ := fun j =>
        if j < C.rs.n then ropfB j * C.ext.reactantMult s2.m_act_conc j else ropfB j
      let roprB := processEquilibriumConstants C s2 roprA
      let roprC : ℕ → ℚ := fun j =>
        if j < C.rs.n ∧ C.rs.reversible j = true then
          roprB j * C.ext.revProductMult s2.m_act_conc j
        else roprB j
      let net : ℕ → ℚ := fun j =>
        if j < C.rs.n then ropfC j - roprC j else s2.m_ropnet j
      match (List.range C.rs.n).findSome? (fun i =>
          if ! finB (s2.m_rfn i) then some (VecName.rfn, i)
          else if ! finB (ropfC i) then some (VecName.ropf, i)
          else if ! finB (roprC i) then some (VecName.ropr, i)
          else none) with
      | some vi => .error (.notFinite .updateROP vi.1 vi.2)
      | none =>
          .ok { s2 with
                m_ropf := ropfC,
                m_ropr := roprC,
                m_ropnet := net,
                m_ROP_ok := true }

/-- The state after `update_rates_C` followed by `update_rates_T`, the
prologue of `processFwdRateCoefficients`. -/
def stateCT (C : Ctx) (th : Thermo) (s : GasState) : GasState :=
  update_rates_T C th (update_rates_C C th s)

/-- The state after the falloff processing inside `updateROP` (the reduced
pressures are left in the `m_ropr` scratch space). -/
def s2Stage (C : Ctx) (s1 : GasState) : GasState :=
  { s1 with m_ropr := fallScratch C s1 }

/-- The working forward-rate-coefficient buffer produced by
`processFwdRateCoefficients` on success: `m_rfn` with the falloff entries
overwritten and every entry scaled by the perturbation multiplier. -/
def ropfCoefStage (C : Ctx) (s1 : GasState) : ℕ → ℚ := fun i =>
  if i < C.rs.n then applyFalloff C s1 s1.m_rfn i * C.rs.perturb i
  else applyFalloff C s1 s1.m_rfn i

/-- The forward buffer after the third-body multiplications in
`updateROP` (this is also the seed copied into `m_ropr`). -/
def ropfTBStage (C : Ctx) (s1 : GasState) : ℕ → ℚ :=
  processThirdBodies C s1 (ropfCoefStage C s1)

/-- The final forward rates of progress written into `m_ropf`. -/
def ropfStage (C : Ctx) (s1 : GasState) : ℕ → ℚ := fun j =>
  if j < C.rs.n then ropfTBStage C s1 j * C.ext.reactantMult s1.m_act_conc j
  else ropfTBStage C s1 j

/-- The final reverse rates of progress written into `m_ropr`. -/
def roprStage (C : Ctx) (s1 : GasState) : ℕ → ℚ := fun j =>
  if j < C.rs.n ∧ C.rs.reversible j = true then
    processEquilibriumConstants C s1 (ropfTBStage C s1) j
      * C.ext.revProductMult s1.m_act_conc j
  else processEquilibriumConstants C s1 (ropfTBStage C s1) j

/-- The final net rates of progress written into `m_ropnet`. -/
def netStage (C : Ctx) (s1 : GasState) : ℕ → ℚ := fun j =>
  if j < C.rs.n then ropfStage C s1 j - roprStage C s1 j else s1.m_ropnet j

/-- The first finiteness-check failure of the trailing loop of
`updateROP`, if any: for each reaction in order, `m_rfn`, then `m_ropf`,
then `m_ropr`. -/
def ropFirstBad (C : Ctx) (s1 : GasState) : Option (VecName × ℕ) :=
  (List.range C.rs.n).findSome? (fun i =>
    if ! finB (s1.m_rfn i) then some (VecName.rfn, i)
    else if ! finB (ropfStage C s1 i) then some (VecName.ropf, i)
    else if ! finB (roprStage C s1 i) then some (VecName.ropr, i)
    else none)

/-- The state returned by a successful `updateROP`, as a function of the
state after the concentration/temperature updates. -/
def okState (C : Ctx) (s1 : GasState) : GasState :=
  { s2Stage C s1 with
    m_ropf := ropfStage C s1,
    m_ropr := roprStage C s1,
    m_ropnet := netStage C s1,
    m_ROP_ok := true }

/-- `okState` with the validity flag cleared again, which is exactly the
state produced by re-running the concentration and temperature updates on
an `okState` under an unchanged thermodynamic state. -/
def ropOver (C : Ctx) (s1 : GasState) : GasState :=
  { s1 with
    m_ropf := ropfStage C s1,
    m_ropr := roprStage C s1,
    m_ropnet := netStage C s1,
    m_ROP_ok := false }

/-- `GasKinetics::getEquilibriumConstants`: refresh the temperature-dependent
quantities, let the stoichiometry engine write `ΔG°` for every reaction
into `m_rkcn` (`getReactionDelta`), report
`Kc[i] = exp(−ΔG°[i]/RT + Δn[i]·log C°)`, and finally force the cached
temperature sentinel to `0.0` so that `m_rkcn` (left holding `ΔG°`) is
refreshed before its next use. -/
def getEquilibriumConstants (C : Ctx) (th : Thermo) (s : GasState) :
    GasState × (ℕ → ℚ) :=
  let s1 := update_rates_T C th s
  let rkcnD : ℕ → ℚ := fun i => if i < C.rs.n then C.ext.delta th.grt i else 0
  let rrt : ℚ := 1 / th.RT
  let kc : ℕ → ℚ := fun i =>
    if i < C.rs.n then C.ext.exp (-(rkcnD i) * rrt + C.rs.dn i * s1.m_logStandConc) else 0
  ({ s1 with m_rkcn := rkcnD, m_temp := 0 }, kc)

/-- The settings bag accepted by `setJacobianSettings` (the relevant subset
of `AnyMap`): each recognized key either absent or present with a value. -/
structure JacSettingsMap where
  constantPressure : Option Bool
  moleFractions : Option Bool
  skipThirdBodies : Option Bool
  skipFalloff : Option Bool
  rtolDeltaT : Option ℚ

/-- An `AnyMap` is empty when it holds no keys at all. -/
def JacSettingsMap.isEmpty (m : JacSettingsMap) : Bool :=
  m.constantPressure.isNone && m.moleFractions.isNone && m.skipThirdBodies.isNone
    && m.skipFalloff.isNone && m.rtolDeltaT.isNone

/-- `GasKinetics::setJacobianSettings`: apply each recognized key (or its
default when the whole bag is empty); if the resulting `skip-falloff` flag
is false, reset it to true and raise `NotImplementedError` (so the
`rtol-delta-T` assignment below the throw is skipped). -/
def setJacobianSettings (m : JacSettingsMap) (s : GasState) : GasState × Option CtErr :=
  let force := m.isEmpty
  let s1 :=
    if force = true ∨ m.constantPressure.isSome = true then
      { s with m_jac_const_pressure := m.constantPressure.getD true }
    else s
  let s2 :=
    if force = true ∨ m.moleFractions.isSome = true then
      { s1 with m_jac_mole_fractions := m.moleFractions.getD true }
    else s1
  let s3 :=
    if force = true ∨ m.skipThirdBodies.isSome = true then
      { s2 with m_jac_skip_third_bodies := m.skipThirdBodies.getD false }
    else s2
  let s4 :=
    if force = true ∨ m.skipFalloff.isSome = true then
      { s3 with m_jac_skip_falloff := m.skipFalloff.getD true }
    else s3
  if s4.m_jac_skip_falloff = false then
    ({ s4 with m_jac_skip_falloff := true }, some (.notImplemented .setJacobianSettings))
  else
    let s5 :=
      if force = true ∨ m.rtolDeltaT.isSome = true then
        { s4 with m_jac_rtol_deltaT := m.rtolDeltaT.getD (1 / 1000000) }
      else s4
    (s5, none)

/-- `GasKinetics::checkLegacyRates`: reject any derivative query while
reactions installed through the legacy (CTI/XML) path are present. -/
def checkLegacyRates (C : Ctx) (name : ProcName) : Except CtErr Unit :=
  if C.rs.legacy ≠ [] then .error (.legacyUnsupported name) else .ok ()

/-- `GasKinetics::processConcentrations_ddT`: scale the buffer by the
temperature derivative of the total molar concentration, computed
analytically for an ideal gas and by finite differences otherwise. -/
def processConcentrations_ddT (C : Ctx) (th : Thermo) (s : GasState) (rop : ℕ → ℚ) :
    ℕ → ℚ :=
  let dctot_dT :=
    if th.isIdealGas = true then -th.ctot / th.T
    else (th.ctotPerturbed s.m_jac_rtol_deltaT - th.ctot) / (th.T * s.m_jac_rtol_deltaT)
  fun i => if i < C.rs.n then rop i * dctot_dT else rop i

/-- `GasKinetics::processEquilibriumConstants_ddT`: finite-difference the
equilibrium constants against a relative temperature perturbation,
normalize by the unperturbed value and the step, and zero the entries of
irreversible reactions. -/
def processEquilibriumConstants_ddT (C : Ctx) (th : Thermo) (s : GasState)
    (drkcn : ℕ → ℚ) : GasState × (ℕ → ℚ) :=
  let dTinv := 1 / (s.m_jac_rtol_deltaT * th.T)
  let p1 := getEquilibriumConstants C (C.ext.thPerturb s.m_jac_rtol_deltaT) s
  let p0 := getEquilibriumConstants C th p1.1
  let kc1 := p1.2
  let kc0 := p0.2
  let d1 : ℕ → ℚ := fun i =>
    if i < C.rs.n then drkcn i * ((kc0 i - kc1 i) * dTinv) / kc0 i else drkcn i
  let d2 : ℕ → ℚ := fun i =>
    if i < C.rs.n ∧ C.rs.reversible i = false then 0 else d1 i
  (p0.1, d2)

/-- `GasKinetics::fwdRateConstants_ddT`: legacy check, then the rate
update, the direct temperature-derivative contribution of each bucket, and
in constant-pressure mode the collider and total-concentration terms. -/
def fwdRateConstants_ddT (C : Ctx) (th : Thermo) (s : GasState) :
    Except CtErr (GasState × (ℕ → ℚ)) :=
  match checkLegacyRates C .fwdRateConstants_ddT with
  | .error e => .error e
  | .ok _ =>
      match updateROP C th s with
      | .error e => .error e
      | .ok s1 =>
          let d0 := C.ext.procDdT s1.m_rfn s1.m_rfn s1.m_jac_rtol_deltaT
          if s1.m_jac_const_pressure = true then
            let dM0 := C.ext.procDdM s1.m_rfn s1.m_rfn s1.m_jac_rtol_deltaT
            let dM1 := processConcentrations_ddT C th s1 dM0
            .ok (s1, fun i => d0 i + dM1 i)
          else .ok (s1, d0)

/-- `GasKinetics::fwdRatesOfProgress_ddT`. -/
def fwdRatesOfProgress_ddT (C : Ctx) (th : Thermo) (s : GasState) :
    Except CtErr (GasState × (ℕ → ℚ)) :=
  match checkLegacyRates C .fwdRatesOfProgress_ddT with
  | .error e => .error e
  | .ok _ =>
      match updateROP C th s with
      | .error e => .error e
      | .ok s1 =>
          let d0 := C.ext.procDdT s1.m_ropf s1.m_rfn s1.m_jac_rtol_deltaT
          if s1.m_jac_const_pressure = true then
            let dC0 := C.ext.reactantScale s1.m_ropf (fun _ => 0)
            let dM0 := C.ext.procDdM s1.m_ropf s1.m_rfn s1.m_jac_atol_deltaT
            let dM1 := C.ext.scaleOrderTB s1.m_ropf dM0
            let dC1 : ℕ → ℚ := fun i => dC0 i + dM1 i
            let dC2 := processConcentrations_ddT C th s1 dC1
            .ok (s1, fun i => d0 i + dC2 i)
          else .ok (s1, d0)

/-- `GasKinetics::revRatesOfProgress_ddT`.  In the constant-pressure
branch the source computes the collider scratch vector `dRevRopM` into
`m_rbuf2` (the `procDdM`/`scaleOrder` sequence) but never accumulates it
into the result — there is no counterpart to the forward version's
`dFwdRopC += dFwdRopM` — so only the zero-seeded `scale` term, after the
total-concentration scaling, is added. -/
def revRatesOfProgress_ddT (C : Ctx) (th : Thermo) (s : GasState) :
    Except CtErr (GasState × (ℕ → ℚ)) :=
  match checkLegacyRates C .revRatesOfProgress_ddT with
  | .error e => .error e
  | .ok _ =>
      match updateROP C th s with
      | .error e => .error e
      | .ok s1 =>
          let d0 := C.ext.procDdT s1.m_ropr s1.m_rfn s1.m_jac_rtol_deltaT
          let pq := processEquilibriumConstants_ddT C th s1 s1.m_ropr
          let s2 := pq.1
          let d1 : ℕ → ℚ := fun i => d0 i + pq.2 i
          if s2.m_jac_const_pressure = true then
            let dC0 := C.ext.revProductScale s1.m_ropr (fun _ => 0)
            let dM0 := C.ext.procDdM s1.m_ropr s1.m_rfn s1.m_jac_atol_deltaT
            let dM1 := C.ext.scaleOrderTB s1.m_ropr dM0
            let dC2 := processConcentrations_ddT C th s2 dC0
            .ok (s2, fun i => d1 i + dC2 i)
          else .ok (s2, d1)

/-- `GasKinetics::netRatesOfProgress_ddT`: legacy check, then the
difference of the forward and reverse contributions. -/
def netRatesOfProgress_ddT (C : Ctx) (th : Thermo) (s : GasState) :
    Except CtErr (GasState × (ℕ → ℚ)) :=
  match checkLegacyRates C .netRatesOfProgress_ddT with
  | .error e => .error e
  | .ok _ =>
      match fwdRatesOfProgress_ddT C th s with
      | .error e => .error e
      | .ok p1 =>
          match revRatesOfProgress_ddT C th p1.1 with
          | .error e => .error e
          | .ok p2 => .ok (p2.1, fun i => p1.2 i - p2.2 i)

/-- `GasKinetics::scaleConcentrations`. -/
def scaleConcentrations (C : Ctx) (th : Thermo) (rates : ℕ → ℚ) : ℕ → ℚ :=
  fun i => if i < C.rs.n then rates i * th.ctot else rates i

/-- `GasKinetics::fwdRatesOfProgress_ddC`: legacy check, forward rate
coefficients, optional molar-density scaling, the stoichiometry engine's
sparse derivative of the concentration-power product, and the optional
third-body sensitivity term. -/
def fwdRatesOfProgress_ddC (C : Ctx) (th : Thermo) (s : GasState) :
    Except CtErr (GasState × (ℕ → ℕ → ℚ)) :=
  match checkLegacyRates C .fwdRatesOfProgress_ddC with
  | .error e => .error e
  | .ok _ =>
      match processFwdRateCoefficients C th s with
      | .error e => .error e
      | .ok p =>
          let s1 := p.1
          let rop_rates :=
            if s1.m_jac_mole_fractions = true then scaleConcentrations C th p.2 else p.2
          let rop_stoich := processThirdBodies C s1 rop_rates
          let jac0 := C.ext.reactantJac s1.m_act_conc rop_stoich
          if s1.m_jac_skip_third_bodies = false ∧ 0 < C.rs.n then
            let rop_3b : ℕ → ℚ := fun i =>
              if i < C.rs.n then rop_rates i * C.ext.reactantMult s1.m_act_conc i
              else rop_rates i
            .ok (s1, fun a b => jac0 a b + C.ext.tbJac rop_3b a b)
          else .ok (s1, jac0)

/-- `GasKinetics::revRatesOfProgress_ddC`. -/
def revRatesOfProgress_ddC (C : Ctx) (th : Thermo) (s : GasState) :
    Except CtErr (GasState × (ℕ → ℕ → ℚ)) :=
  match checkLegacyRates C .revRatesOfProgress_ddC with
  | .error e => .error e
  | .ok _ =>
      match processFwdRateCoefficients C th s with
      | .error e => .error e
      | .ok p =>
          let s1 := p.1
          let rop0 := processEquilibriumConstants C s1 p.2
          let rop_rates :=
            if s1.m_jac_mole_fractions = true then scaleConcentrations C th rop0 else rop0
          let rop_stoich := processThirdBodies C s1 rop_rates
          let jac0 := C.ext.revProductJac s1.m_act_conc rop_stoich
          if s1.m_jac_skip_third_bodies = false ∧ 0 < C.rs.n then
            let rop_3b : ℕ → ℚ := fun i =>
              if i < C.rs.n then rop_rates i * C.ext.revProductMult s1.m_act_conc i
              else rop_rates i
            .ok (s1, fun a b => jac0 a b + C.ext.tbJac rop_3b a b)
          else .ok (s1, jac0)

/-- `GasKinetics::netRatesOfProgress_ddC`: legacy check, the forward
contribution, then the reverse contribution subtracted. -/
def netRatesOfProgress_ddC (C : Ctx) (th : Thermo) (s : GasState) :
    Except CtErr (GasState × (ℕ → ℕ → ℚ)) :=
  match checkLegacyRates C .netRatesOfProgress_ddC with
  | .error e => .error e
  | .ok _ =>
      match processFwdRateCoefficients C th s with
      | .error e => .error e
      | .ok p =>
          let s1 := p.1
          let rop_rates0 :=
            if s1.m_jac_mole_fractions = true then scaleConcentrations C th p.2 else p.2
          let jacF := C.ext.reactantJac s1.m_act_conc (processThirdBodies C s1 rop_rates0)
          let jacF2 : ℕ → ℕ → ℚ :=
            if s1.m_jac_skip_third_bodies = false ∧ 0 < C.rs.n then
              fun a b => jacF a b + C.ext.tbJac
                (fun i => if i < C.rs.n then rop_rates0 i * C.ext.reactantMult s1.m_act_conc i
                          else rop_rates0 i) a b
            else jacF
          let rop_rates1 := processEquilibriumConstants C s1 rop_rates0
          let jacR := C.ext.revProductJac s1.m_act_conc (processThirdBodies C s1 rop_rates1)
          let jacR2 : ℕ → ℕ → ℚ :=
            if s1.m_jac_skip_third_bodies = false ∧ 0 < C.rs.n then
              fun a b => jacR a b + C.ext.tbJac
                (fun i => if i < C.rs.n then rop_rates1 i * C.ext.revProductMult s1.m_act_conc i
                          else rop_rates1 i) a b
            else jacR
          .ok (s1, fun a b => jacF2 a b - jacR2 a b)

/-- Modelled from the spec: `BulkKinetics::invalidateCache`, the base-class
part of the invalidation (its source is not part of this repository slice).
Structural mutation invalidates the cached quantities; the base class
clears the rate-of-progress validity flag. -/
def bulkInvalidateCache (s : GasState) : GasState := { s with m_ROP_ok := false }

/-- `GasKinetics::invalidateCache`: the base-class invalidation followed by
the sentinel perturbation `m_pres += 0.13579`. -/
def invalidateCache (s : GasState) : GasState :=
  let s1 := bulkInvalidateCache s
  { s1 with m_pres := s1.m_pres + 13579 / 100000 }

/-- The reaction sub-type tags dispatched on by `modifyReaction` for
reactions that use the legacy construction path. -/
inductive RxnKind where
  | elementaryLegacy
  | threeBodyLegacy
  | falloffLegacy
  | chemActLegacy
  | plogLegacy
  | chebyshevLegacy
  | unknownLegacy
  deriving DecidableEq

/-- Modelled from the spec: `BulkKinetics::modifyReaction` (not in this
repository slice) replaces the externally-owned rate evaluator for the
reaction; it does not touch this core's cached quantities. -/
def bulkModifyReaction (s : GasState) : GasState := s

/-- `GasKinetics::modifyReaction`: the base-class replacement, then
`invalidateCache`, then — for legacy reactions — dispatch to the per-type
modify routine (each of which replaces an externally-owned evaluator), with
an unknown type being a fatal error. -/
def modifyReaction (usesLegacy : Bool) (kind : RxnKind) (s : GasState) :
    Except CtErr GasState :=
  let s1 := invalidateCache (bulkModifyReaction s)
  if usesLegacy = false then .ok s1
  else
    match kind with
    | .elementaryLegacy => .ok s1
    | .threeBodyLegacy => .ok s1
    | .falloffLegacy => .ok s1
    | .chemActLegacy => .ok s1
    | .plogLegacy => .ok s1
    | .chebyshevLegacy => .ok s1
    | .unknownLegacy => .error (.unknownReactionType .modifyReaction)

/-! ### Concrete instantiations used to exercise the model -/

/-- A one-reaction, reversible collection handled by the legacy Arrhenius
bucket, with no falloff, PLOG, Chebyshev, third-body or legacy parts. -/
def rs0 : ReactionSet :=
  { n := 1
    reversible := fun _ => true
    dn := fun _ => 1
    perturb := fun _ => 1
    isPlainRate := fun _ => true
    isBulk := fun _ => false
    isPlog := fun _ => false
    isCheb := fun _ => false
    nPlog := 0
    nCheb := 0
    nFall := 0
    fallWorkSize := 0
    fallindx := fun i => i
    isFalloffLegacy := fun _ => true
    hasTB := fun _ => false
    n3b := 0
    tb3indx := fun i => i
    legacy := [] }

/-- A concrete thermodynamic state. -/
def th0 : Thermo :=
  { T := 300
    P := 101325
    standConc := 1
    RT := 1
    grt := fun _ => 1
    actConc := fun _ => 1
    physConc := fun _ => 1
    ctot := 1
    isIdealGas := true
    ctotPerturbed := fun _ => 1 }

/-- Concrete external evaluators (all given by simple total functions). -/
def ext0 : Ext :=
  { exp := fun _ => 2
    log := fun _ => 0
    log10 := fun _ => 0
    ratesEval := fun _ _ _ => 5
    fallLowEval := fun _ _ _ => 1
    fallHighEval := fun _ _ _ => 1
    falloffTempWork := fun _ _ => 0
    blendOne := fun _ pr _ => pr
    bulkEval := fun _ _ _ => 3
    plogEval := fun _ _ _ _ => 4
    chebEval := fun _ _ _ _ => 6
    delta := fun _ _ => 1
    multiConcmEval := fun _ _ _ => 1
    concm3bEval := fun _ _ _ => 1
    fallConcmEval := fun _ _ _ => 1
    reactantMult := fun _ _ => 1
    revProductMult := fun _ _ => 1
    reactantScale := fun _ b _ => b 0
    revProductScale := fun _ b _ => b 0
    procDdT := fun b _ _ _ => b 0
    procDdM := fun b _ _ _ => b 0
    scaleOrderTB := fun _ b _ => b 0
    reactantJac := fun _ _ _ _ => 0
    revProductJac := fun _ _ _ _ => 0
    tbJac := fun _ _ _ => 0
    thPerturb := fun _ =>
      { T := 300
        P := 101325
        standConc := 1
        RT := 1
        grt := fun _ => 1
        actConc := fun _ => 1
        physConc := fun _ => 1
        ctot := 1
        isIdealGas := true
        ctotPerturbed := fun _ => 1 } }

/-- The baseline concrete context. -/
def C0 : Ctx := { rs := rs0, ext := ext0 }

/-- A baseline concrete starting cache state (cold caches). -/
def gs0 : GasState :=
  { m_temp := 0
    m_pres := 0
    m_logStandConc := 0
    m_rfn := fun _ => 1
    m_rfn_low := fun _ => 1
    m_rfn_high := fun _ => 1
    falloff_work := fun _ => 0
    m_rkcn := fun _ => 1
    m_concm := fun _ => 0
    concm_3b_values := fun _ => 0
    concm_falloff_values := fun _ => 0
    m_act_conc := fun _ => 1
    m_phys_conc := fun _ => 1
    m_ropf := fun _ => 0
    m_ropr := fun _ => 0
    m_ropnet := fun _ => 0
    m_ROP_ok := false
    m_logP_plog := 0
    m_log10P_cheb := 0
    bulk_lastT := 0
    bulk_lastP := 0
    m_jac_const_pressure := true
    m_jac_mole_fractions := true
    m_jac_skip_third_bodies := false
    m_jac_skip_falloff := true
    m_jac_rtol_deltaT := 1 / 1000000
    m_jac_atol_deltaT := 1 / 1000000 }

/-- The context with one legacy falloff reaction installed. -/
def CF : Ctx := { rs := { rs0 with nFall := 1, fallWorkSize := 1 }, ext := ext0 }

/-- A context whose Arrhenius bucket produces an overflowing (non-finite)
rate constant. -/
def CBad : Ctx :=
  { rs := rs0, ext := { ext0 with ratesEval := fun _ _ _ => BigNumber } }

/-- A context with one reaction installed through the legacy path. -/
def CL : Ctx := { rs := { rs0 with legacy := [0] }, ext := ext0 }

/-- A cache state whose temperature sentinel matches the probe temperature
below while its pressure sentinel does not, holding a stale rate constant. -/
def s4 : GasState := { gs0 with m_temp := 300, m_pres := 1, m_rfn := fun _ => 42 }

/-- The probe thermodynamic state for the cache-validity claims: same
temperature as `s4`'s sentinel, different pressure. -/
def th4 : Thermo := { th0 with T := 300, P := 2 }

/-- A one-reaction collection whose reaction is handled by the legacy
PLOG bucket. -/
def CP : Ctx :=
  { rs := { rs0 with isPlainRate := fun _ => false, isPlog := fun _ => true, nPlog := 1 }
    ext := ext0 }

/-- A one-reaction collection whose reaction is handled by the legacy
Chebyshev bucket. -/
def CE : Ctx :=
  { rs := { rs0 with isPlainRate := fun _ => false, isCheb := fun _ => true, nCheb := 1 }
    ext := ext0 }

/-- A warm cache state used by the structural-mutation claims. -/
def s5 : GasState := { gs0 with m_temp := 500, m_pres := 101325 }

/-- A thermodynamic state that coincides exactly with `s5`'s sentinels. -/
def th5 : Thermo := { th0 with T := 500, P := 101325 }

/-- The settings bag that attempts to disable `skip-falloff`. -/
def m8 : JacSettingsMap :=
  { constantPressure := none
    moleFractions := none
    skipThirdBodies := none
    skipFalloff := some false
    rtolDeltaT := none }

/-! ### List helpers -/

theorem list_find?_congr {α : Type} {p q : α → Bool} (l : List α)
    (h : ∀ x ∈ l, p x = q x) : l.find? p = l.find? q := by
  induction l with
  | nil => rfl
  | cons a t ih =>
      have ha := h a (List.mem_cons_self a t)
      by_cases hq : q a = true
      · rw [List.find?_cons_of_pos _ (ha.trans hq), List.find?_cons_of_pos _ hq]
      · rw [List.find?_cons_of_neg _ (by simp [ha, hq]),
          List.find?_cons_of_neg _ (by simp [hq])]
        exact ih fun x hx => h x (List.mem_cons_of_mem a hx)

theorem list_findSome?_congr {α β : Type} {f g : α → Option β} (l : List α)
    (h : ∀ x ∈ l, f x = g x) : l.findSome? f = l.findSome? g := by
  induction l with
  | nil => rfl
  | cons a t ih =>
      simp only [List.findSome?]
      rw [h a (List.mem_cons_self a t)]
      cases g a with
      | some b => rfl
      | none => exact ih fun x hx => h x (List.mem_cons_of_mem a hx)

theorem list_findSome?_eq_none {α β : Type} {f : α → Option β} {l : List α} :
    l.findSome? f = none ↔ ∀ x ∈ l, f x = none := by
  induction l with
  | nil => simp [List.findSome?]
  | cons a t ih =>
      simp only [List.findSome?]
      cases hfa : f a with
      | some b => simp [hfa]
      | none => simpa [hfa] using ih

theorem list_findSome?_some {α β : Type} {f : α → Option β} {l : List α} {b : β}
    (h : l.findSome? f = some b) : ∃ a, a ∈ l ∧ f a = some b := by
  induction l with
  | nil => simp [List.findSome?] at h
  | cons a t ih =>
      simp only [List.findSome?] at h
      cases hfa : f a with
      | some c =>
          rw [hfa] at h
          exact ⟨a, List.mem_cons_self a t, hfa.trans h⟩
      | none =>
          rw [hfa] at h
          obtain ⟨x, hx, hfx⟩ := ih h
          exact ⟨x, List.mem_cons_of_mem a hx, hfx⟩

theorem list_find?_unique {p : ℕ → Bool} {l : List ℕ} {i : ℕ}
    (hmem : i ∈ l) (hp : p i = true) (huniq : ∀ x ∈ l, p x = true → x = i) :
    l.find? p = some i := by
  induction l with
  | nil => cases hmem
  | cons a t ih =>
      by_cases hpa : p a = true
      · rw [List.find?_cons_of_pos _ hpa, huniq a (List.mem_cons_self a t) hpa]
      · rw [List.find?_cons_of_neg _ (by simp [hpa])]
        rcases List.mem_cons.mp hmem with h | h
        · exact absurd (h ▸ hp) hpa
        · exact ih h fun x hx hpx => huniq x (List.mem_cons_of_mem a hx) hpx

/-- Collapsing a repeated conditional assignment. -/
theorem ite_fix {α : Type} (c : Prop) [Decidable c] (x y : α) :
    (if c then x else if c then x else y) = if c then x else y := by
  by_cases h : c <;> simp [h]

/-! ### Structural lemmas about the evaluation pipeline -/

theorem urt_bulk_lastT (C : Ctx) (th : Thermo) (x : GasState) :
    (update_rates_T C th x).bulk_lastT = th.T := by
  unfold update_rates_T
  by_cases h : th.T ≠ x.bulk_lastT ∨ th.P ≠ x.bulk_lastP
  · simp [h]
  · push_neg at h
    simp [h.1.symm]

theorem urt_bulk_lastP (C : Ctx) (th : Thermo) (x : GasState) :
    (update_rates_T C th x).bulk_lastP = th.P := by
  unfold update_rates_T
  by_cases h : th.T ≠ x.bulk_lastT ∨ th.P ≠ x.bulk_lastP
  · simp [h]
  · push_neg at h
    simp [h.2.symm]

/-- A state whose cache sentinels already match the current thermodynamic
state is left unchanged by `update_rates_T`. -/
theorem urt_fixpoint (C : Ctx) (th : Thermo) (u : GasState)
    (h1 : u.m_temp = th.T) (h2 : u.m_pres = th.P)
    (h3 : u.bulk_lastT = th.T) (h4 : u.bulk_lastP = th.P)
    (h5 : u.m_logStandConc = C.ext.log th.standConc) :
    update_rates_T C th u = u := by
  unfold update_rates_T
  ext <;> simp [h1, h2, h3, h4, h5]

theorem vals3b_idem (C : Ctx) (th : Thermo) (old : ℕ → ℚ) :
    vals3bFun C th (vals3bFun C th old) = vals3bFun C th old := by
  funext i
  unfold vals3bFun
  by_cases h : i < C.rs.n3b <;> simp [h]

theorem valsFall_idem (C : Ctx) (th : Thermo) (old : ℕ → ℚ) :
    valsFallFun C th (valsFallFun C th old) = valsFallFun C th old := by
  funext i
  unfold valsFallFun
  by_cases h : i < C.rs.nFall <;> simp [h]

theorem concm_idem (C : Ctx) (th : Thermo) (s : GasState) :
    concmFun C th (update_rates_C C th s) = concmFun C th s := by
  funext j
  simp only [concmFun]
  cases hF : (List.range C.rs.nFall).find? (fun i => C.rs.fallindx i == j) with
  | some i =>
      exact congrFun (valsFall_idem C th s.concm_falloff_values) i
  | none =>
      cases h3 : (List.range C.rs.n3b).find? (fun i => C.rs.tb3indx i == j) with
      | some i =>
          exact congrFun (vals3b_idem C th s.concm_3b_values) i
      | none =>
          show (if j < C.rs.n ∧ C.rs.hasTB j = true
                then C.ext.multiConcmEval th.physConc th.ctot j
                else (update_rates_C C th s).m_concm j) =
              (if j < C.rs.n ∧ C.rs.hasTB j = true
               then C.ext.multiConcmEval th.physConc th.ctot j
               else s.m_concm j)
          by_cases hm : j < C.rs.n ∧ C.rs.hasTB j = true
          · simp [hm]
          · simp only [if_neg hm]
            show concmFun C th s j = s.m_concm j
            simp only [concmFun, hF, h3, if_neg hm]

theorem fallScratch_zero (C : Ctx) (s : GasState) (h0 : C.rs.nFall = 0) :
    fallScratch C s = s.m_ropr := by
  funext i
  unfold fallScratch
  simp [h0]

theorem applyFalloff_zero (C : Ctx) (s : GasState) (X : ℕ → ℚ) (h0 : C.rs.nFall = 0) :
    applyFalloff C s X = X := by
  funext j
  unfold applyFalloff
  simp [h0]

theorem prFirstBad_zero (C : Ctx) (s : GasState) (h0 : C.rs.nFall = 0) :
    prFirstBad C s = none := by
  unfold prFirstBad
  simp [h0]

/-- `processFwdRateCoefficients`, characterized through the stage view. -/
theorem pfrc_eq (C : Ctx) (th : Thermo) (s : GasState) :
    processFwdRateCoefficients C th s =
      match prFirstBad C (stateCT C th s) with
      | some i => Except.error (CtErr.notFinite .processFalloffReactions .pr i)
      | none =>
          Except.ok (s2Stage C (stateCT C th s), ropfCoefStage C (stateCT C th s)) := by
  simp only [stateCT]
  simp only [processFwdRateCoefficients, processFalloffReactions]
  by_cases h : 0 < C.rs.nFall
  · simp only [if_pos h]
    cases hpr : prFirstBad C (update_rates_T C th (update_rates_C C th s)) with
    | some i => rfl
    | none => rfl
  · have h0 : C.rs.nFall = 0 := Nat.eq_zero_of_not_pos h
    simp only [if_neg h]
    rw [prFirstBad_zero C _ h0]
    rw [show s2Stage C (update_rates_T C th (update_rates_C C th s))
          = update_rates_T C th (update_rates_C C th s) from by
        unfold s2Stage
        rw [fallScratch_zero C _ h0]]
    rw [show ropfCoefStage C (update_rates_T C th (update_rates_C C th s))
          = fun i => if i < C.rs.n
              then (update_rates_T C th (update_rates_C C th s)).m_rfn i * C.rs.perturb i
              else (update_rates_T C th (update_rates_C C th s)).m_rfn i from by
        unfold ropfCoefStage
        rw [applyFalloff_zero C _ _ h0]]

/-- `updateROP`, characterized through the stage view. -/
theorem updateROP_eq (C : Ctx) (th : Thermo) (s : GasState) :
    updateROP C th s =
      match prFirstBad C (stateCT C th s) with
      | some i => Except.error (CtErr.notFinite .processFalloffReactions .pr i)
      | none =>
          match ropFirstBad C (stateCT C th s) with
          | some vi => Except.error (CtErr.notFinite .updateROP vi.1 vi.2)
          | none => Except.ok (okState C (stateCT C th s)) := by
  simp only [updateROP]
  rw [pfrc_eq]
  cases hpr : prFirstBad C (stateCT C th s) with
  | some i => rfl
  | none => rfl

theorem applyFalloff_ropOver (C : Ctx) (s1 : GasState) (X : ℕ → ℚ) :
    applyFalloff C (ropOver C s1) X = applyFalloff C s1 X := by
  funext j
  unfold applyFalloff
  cases hf : (List.range C.rs.nFall).find? (fun i => C.rs.fallindx i == j) with
  | some i =>
      have hi : i < C.rs.nFall := List.mem_range.mp (List.mem_of_find?_eq_some hf)
      show fallScratch C (ropOver C s1) i = fallScratch C s1 i
      unfold fallScratch
      rw [if_pos hi, if_pos hi]
      rfl
  | none => rfl

theorem ropfCoefStage_ropOver (C : Ctx) (s1 : GasState) :
    ropfCoefStage C (ropOver C s1) = ropfCoefStage C s1 := by
  unfold ropfCoefStage
  rw [applyFalloff_ropOver]
  rfl

theorem ropfTBStage_ropOver (C : Ctx) (s1 : GasState) :
    ropfTBStage C (ropOver C s1) = ropfTBStage C s1 := by
  unfold ropfTBStage
  rw [ropfCoefStage_ropOver]
  rfl

theorem ropfStage_ropOver (C : Ctx) (s1 : GasState) :
    ropfStage C (ropOver C s1) = ropfStage C s1 := by
  unfold ropfStage
  rw [ropfTBStage_ropOver]
  rfl

theorem roprStage_ropOver (C : Ctx) (s1 : GasState) :
    roprStage C (ropOver C s1) = roprStage C s1 := by
  unfold roprStage
  rw [ropfTBStage_ropOver]
  rfl

theorem netStage_ropOver (C : Ctx) (s1 : GasState) :
    netStage C (ropOver C s1) = netStage C s1 := by
  funext j
  unfold netStage
  by_cases hj : j < C.rs.n
  · simp only [if_pos hj, ropfStage_ropOver, roprStage_ropOver]
  · simp only [if_neg hj]
    show netStage C s1 j = s1.m_ropnet j
    unfold netStage
    rw [if_neg hj]

theorem ropFirstBad_ropOver (C : Ctx) (s1 : GasState) :
    ropFirstBad C (ropOver C s1) = ropFirstBad C s1 := by
  unfold ropFirstBad
  refine list_findSome?_congr _ fun i _ => ?_
  simp only [ropfStage_ropOver, roprStage_ropOver]
  rfl

theorem okState_ropOver (C : Ctx) (s1 : GasState) :
    okState C (ropOver C s1) = okState C s1 := by
  unfold okState s2Stage
  rw [ropfStage_ropOver, roprStage_ropOver, netStage_ropOver]
  rfl

theorem urc_on_okState (C : Ctx) (th : Thermo) (s : GasState) :
    update_rates_C C th (okState C (stateCT C th s)) = ropOver C (stateCT C th s) := by
  unfold update_rates_C
  have hc : concmFun C th (okState C (stateCT C th s)) = concmFun C th s :=
    concm_idem C th s
  have h3 : vals3bFun C th (okState C (stateCT C th s)).concm_3b_values
      = vals3bFun C th s.concm_3b_values :=
    vals3b_idem C th s.concm_3b_values
  have hf : valsFallFun C th (okState C (stateCT C th s)).concm_falloff_values
      = valsFallFun C th s.concm_falloff_values :=
    valsFall_idem C th s.concm_falloff_values
  have hp : (if 0 < C.rs.nPlog then C.ext.log th.P
        else (okState C (stateCT C th s)).m_logP_plog)
      = if 0 < C.rs.nPlog then C.ext.log th.P else s.m_logP_plog :=
    ite_fix (0 < C.rs.nPlog) (C.ext.log th.P) s.m_logP_plog
  have hq : (if 0 < C.rs.nCheb then C.ext.log10 th.P
        else (okState C (stateCT C th s)).m_log10P_cheb)
      = if 0 < C.rs.nCheb then C.ext.log10 th.P else s.m_log10P_cheb :=
    ite_fix (0 < C.rs.nCheb) (C.ext.log10 th.P) s.m_log10P_cheb
  rw [hc, h3, hf, hp, hq]
  rfl

theorem stateCT_okState (C : Ctx) (th : Thermo) (s : GasState) :
    stateCT C th (okState C (stateCT C th s)) = ropOver C (stateCT C th s) := by
  show update_rates_T C th (update_rates_C C th (okState C (stateCT C th s)))
      = ropOver C (stateCT C th s)
  rw [urc_on_okState]
  refine urt_fixpoint C th _ rfl rfl ?_ ?_ rfl
  · exact urt_bulk_lastT C th (update_rates_C C th s)
  · exact urt_bulk_lastP C th (update_rates_C C th s)

/-! ### Claim C7 -/

/-- C7: calling the evaluation entry point (`updateROP`) twice in
succession with an unchanged thermodynamic state produces bit-identical
cached forward rate constants and bit-identical forward, reverse, and net
rate-of-progress vectors after the second call as after the first — in
fact the second call reproduces the entire first-call state exactly. -/
theorem gas_C7 (C : Ctx) (th : Thermo) (s t : GasState)
    (h : updateROP C th s = Except.ok t) : updateROP C th t = Except.ok t := by
  rw [updateROP_eq] at h
  cases hpr : prFirstBad C (stateCT C th s) with
  | some i => rw [hpr] at h; exact absurd h (by simp)
  | none =>
      rw [hpr] at h
      cases hrb : ropFirstBad C (stateCT C th s) with
      | some vi => rw [hrb] at h; exact absurd h (by simp)
      | none =>
          rw [hrb] at h
          have ht : t = okState C (stateCT C th s) := (Except.ok.inj h).symm
          subst ht
          rw [updateROP_eq, stateCT_okState]
          have hpr2 : prFirstBad C (ropOver C (stateCT C th s)) = none := hpr
          rw [hpr2, ropFirstBad_ropOver]
          rw [hrb, okState_ropOver]

/-- Concrete evaluation: the forward rate constant cached for the single
reaction of `C0` after the update passes. -/
theorem stateCT_C0_rfn : (stateCT C0 th0 gs0).m_rfn 0 = 5 := by
  norm_num [stateCT, update_rates_T, update_rates_C, C0, rs0, ext0, th0, gs0]

/-- Concrete evaluation: the cached reverse-rate multiplier of `C0`. -/
theorem stateCT_C0_rkcn : (stateCT C0 th0 gs0).m_rkcn 0 = 2 := by
  norm_num [stateCT, update_rates_T, update_rates_C, rkcnFun, C0, rs0, ext0, th0, gs0,
    min_eq_left (show (2:ℚ) ≤ BigNumber by norm_num [BigNumber])]

/-- Concrete evaluation: the forward rate of progress of `C0`. -/
theorem ropfStage_C0 : ropfStage C0 (stateCT C0 th0 gs0) 0 = 5 := by
  have hact : (stateCT C0 th0 gs0).m_act_conc = th0.actConc := rfl
  norm_num [ropfStage, ropfTBStage, ropfCoefStage, processThirdBodies, applyFalloff,
    stateCT_C0_rfn, hact,
    show C0.rs.n = 1 from rfl, show C0.rs.nFall = 0 from rfl,
    show C0.rs.n3b = 0 from rfl, show C0.rs.hasTB 0 = false from rfl,
    show C0.rs.perturb 0 = 1 from rfl,
    show C0.ext.reactantMult th0.actConc 0 = 1 from rfl]

/-- Concrete evaluation: the reverse rate of progress of `C0`. -/
theorem roprStage_C0 : roprStage C0 (stateCT C0 th0 gs0) 0 = 10 := by
  have hact : (stateCT C0 th0 gs0).m_act_conc = th0.actConc := rfl
  norm_num [roprStage, processEquilibriumConstants, ropfTBStage, ropfCoefStage,
    processThirdBodies, applyFalloff, stateCT_C0_rfn, stateCT_C0_rkcn, hact,
    show C0.rs.n = 1 from rfl, show C0.rs.nFall = 0 from rfl,
    show C0.rs.n3b = 0 from rfl, show C0.rs.hasTB 0 = false from rfl,
    show C0.rs.perturb 0 = 1 from rfl, show C0.rs.reversible 0 = true from rfl,
    show C0.ext.revProductMult th0.actConc 0 = 1 from rfl]

theorem ropFirstBad_C0 : ropFirstBad C0 (stateCT C0 th0 gs0) = none := by
  unfold ropFirstBad
  rw [show List.range C0.rs.n = [0] from rfl]
  simp [List.findSome?, stateCT_C0_rfn, ropfStage_C0, roprStage_C0,
    show finB 5 = true from by decide, show finB 10 = true from by decide]

theorem updateROP_C0_eval :
    updateROP C0 th0 gs0 = Except.ok (okState C0 (stateCT C0 th0 gs0)) := by
  rw [updateROP_eq, prFirstBad_zero C0 _ rfl, ropFirstBad_C0]

theorem gas_C7_witness :
    updateROP C0 th0 gs0 = Except.ok (okState C0 (stateCT C0 th0 gs0))
    ∧ updateROP C0 th0 (okState C0 (stateCT C0 th0 gs0))
        = Except.ok (okState C0 (stateCT C0 th0 gs0)) :=
  ⟨updateROP_C0_eval, gas_C7 C0 th0 gs0 (okState C0 (stateCT C0 th0 gs0)) updateROP_C0_eval⟩

/-! ### Claim C1 -/

/-- C1: after the equilibrium-constant update (`updateKc`), for every
reversible reaction `i` the cached reverse-rate multiplier `m_rkcn[i]`
equals `exp(ΔG°_i/RT − Δn_i·ln C°)` clamped above by the large finite
ceiling `BigNumber`, and for every irreversible reaction `i` it is exactly
`0` — for every temperature, pressure and composition. -/
theorem gas_C1 (C : Ctx) (th : Thermo) (s : GasState) (i : ℕ) (hi : i < C.rs.n) :
    (updateKc C th s).m_rkcn i =
      if C.rs.reversible i = true then
        min (C.ext.exp (C.ext.delta th.grt i * (1 / th.RT)
              - C.rs.dn i * s.m_logStandConc)) BigNumber
      else 0 := by
  show rkcnFun C th s.m_logStandConc i = _
  unfold rkcnFun
  by_cases hr : C.rs.reversible i = true
  · simp [hi, hr]
  · have hr' : C.rs.reversible i = false := by
      cases hrr : C.rs.reversible i
      · rfl
      · exact absurd hrr hr
    simp [hi, hr', hr]

theorem gas_C1_witness :
    0 < C0.rs.n
    ∧ (updateKc C0 th0 gs0).m_rkcn 0 =
        (if C0.rs.reversible 0 = true then
          min (C0.ext.exp (C0.ext.delta th0.grt 0 * (1 / th0.RT)
                - C0.rs.dn 0 * gs0.m_logStandConc)) BigNumber
        else 0) :=
  ⟨by decide, gas_C1 C0 th0 gs0 0 (by decide)⟩

/-! ### Claim C2 -/

/-- C2: on a successful falloff-processing pass, for every falloff-family
reaction `i` (with an injective falloff index map), the reduced pressure
equals `[M]·k0 / (k∞ + ε)` where `ε = SmallNumber` is a small positive
guard, and the entry written into the forward-rate buffer at reaction
index `fallindx i` equals `blended(pr_i)·k∞_i` when the reaction's type is
falloff and `blended(pr_i)·k0_i` when it is chemically activated, where
`blended` is the installed blending-curve evaluation of the reduced
pressure. -/
theorem gas_C2 (C : Ctx) (s s' : GasState) (ropf ropf' : ℕ → ℚ) (i : ℕ)
    (h : processFalloffReactions C s ropf = Except.ok (s', ropf'))
    (hi : i < C.rs.nFall)
    (hinj : ∀ i', i' < C.rs.nFall → C.rs.fallindx i' = C.rs.fallindx i → i' = i) :
    prVal C s i = s.concm_falloff_values i * s.m_rfn_low i / (s.m_rfn_high i + SmallNumber)
    ∧ 0 < SmallNumber
    ∧ ropf' (C.rs.fallindx i) =
        (if C.rs.isFalloffLegacy i = true then
          C.ext.blendOne i (prVal C s i) s.falloff_work * s.m_rfn_high i
        else
          C.ext.blendOne i (prVal C s i) s.falloff_work * s.m_rfn_low i) := by
  refine ⟨rfl, by unfold SmallNumber; positivity, ?_⟩
  unfold processFalloffReactions at h
  cases hpr : prFirstBad C s with
  | some k => rw [hpr] at h; exact absurd h (by simp)
  | none =>
      rw [hpr] at h
      have hr : ropf' = applyFalloff C s ropf :=
        (congrArg Prod.snd (Except.ok.inj h)).symm
      subst hr
      unfold applyFalloff
      have hfind : (List.range C.rs.nFall).find?
          (fun i' => C.rs.fallindx i' == C.rs.fallindx i) = some i := by
        refine list_find?_unique (List.mem_range.mpr hi) (by simp) ?_
        intro x hx hpx
        exact hinj x (List.mem_range.mp hx) (by simpa using hpx)
      rw [hfind]
      show fallScratch C s i = _
      unfold fallScratch
      rw [if_pos hi]

theorem prFirstBad_CF : prFirstBad CF gs0 = none := by
  unfold prFirstBad
  rw [show List.range CF.rs.nFall = [0] from rfl]
  have hp : prVal CF gs0 0 = 0 := by
    norm_num [prVal, gs0]
  simp [List.find?, hp, show finB 0 = true from by decide]

theorem gas_C2_witness :
    0 < CF.rs.nFall
    ∧ (prVal CF gs0 0 = gs0.concm_falloff_values 0 * gs0.m_rfn_low 0
          / (gs0.m_rfn_high 0 + SmallNumber)
        ∧ 0 < SmallNumber
        ∧ applyFalloff CF gs0 gs0.m_rfn (CF.rs.fallindx 0) =
            (if CF.rs.isFalloffLegacy 0 = true then
              CF.ext.blendOne 0 (prVal CF gs0 0) gs0.falloff_work * gs0.m_rfn_high 0
            else
              CF.ext.blendOne 0 (prVal CF gs0 0) gs0.falloff_work * gs0.m_rfn_low 0)) :=
  ⟨by decide,
    gas_C2 CF gs0 { gs0 with m_ropr := fallScratch CF gs0 } gs0.m_rfn
      (applyFalloff CF gs0 gs0.m_rfn) 0
      (by unfold processFalloffReactions; rw [prFirstBad_CF])
      (by decide)
      (fun i' hi' _ => Nat.lt_one_iff.mp hi')⟩

/-! ### Claim C3 -/

/-- C3: after a successful rate-of-progress update (`updateROP`), for
every reaction `j` the cached net rate of progress equals the cached
forward rate of progress minus the cached reverse rate of progress, all
read from the same updated state. -/
theorem gas_C3 (C : Ctx) (th : Thermo) (s t : GasState)
    (h : updateROP C th s = Except.ok t) (j : ℕ) (hj : j < C.rs.n) :
    t.m_ropnet j = t.m_ropf j - t.m_ropr j := by
  rw [updateROP_eq] at h
  cases hpr : prFirstBad C (stateCT C th s) with
  | some i => rw [hpr] at h; exact absurd h (by simp)
  | none =>
      rw [hpr] at h
      cases hrb : ropFirstBad C (stateCT C th s) with
      | some vi => rw [hrb] at h; exact absurd h (by simp)
      | none =>
          rw [hrb] at h
          have ht : t = okState C (stateCT C th s) := (Except.ok.inj h).symm
          subst ht
          show netStage C (stateCT C th s) j = _
          unfold netStage
          rw [if_pos hj]
          rfl

theorem gas_C3_witness :
    updateROP C0 th0 gs0 = Except.ok (okState C0 (stateCT C0 th0 gs0))
    ∧ 0 < C0.rs.n
    ∧ (okState C0 (stateCT C0 th0 gs0)).m_ropnet 0
        = (okState C0 (stateCT C0 th0 gs0)).m_ropf 0
          - (okState C0 (stateCT C0 th0 gs0)).m_ropr 0 :=
  ⟨updateROP_C0_eval, by decide,
    gas_C3 C0 th0 gs0 (okState C0 (stateCT C0 th0 gs0)) updateROP_C0_eval 0 (by decide)⟩

/-! ### Claim C4 (corrected) -/

/-- C4 counterexample: at a state whose temperature equals the cached
temperature sentinel but whose pressure differs from the cached pressure
sentinel, the claim as stated requires full recomputation of the cached
rate-constant quantities (here the Arrhenius bucket would produce 5), but
`update_rates_T` leaves the stale cached value 42 in place. -/
theorem gas_C4_counterexample :
    (th4.T ≠ s4.m_temp ∨ th4.P ≠ s4.m_pres)
    ∧ C0.ext.ratesEval th4.T (C0.ext.log th4.T) 0 = 5
    ∧ (update_rates_T C0 th4 s4).m_rfn 0 = 42
    ∧ (update_rates_T C0 th4 s4).m_rfn 0 ≠ C0.ext.ratesEval th4.T (C0.ext.log th4.T) 0 := by
  refine ⟨Or.inr (by decide), by decide, by decide, by decide⟩

/-- C4 (amended): `update_rates_T` sets both cache sentinels to the
current `(T, P)`.  The temperature-dependent cached rate-constant
quantities — the legacy Arrhenius forward rate constants, the falloff
limit rates `m_rfn_low`/`m_rfn_high`, and the equilibrium-constant
multipliers `m_rkcn` — are recomputed exactly when the current
temperature differs from the cached temperature sentinel under exact
comparison: all of them are reused whenever the temperatures are exactly
equal (even if the pressure differs), and all of them are recomputed
whenever the temperatures differ.  The legacy pressure-dependent PLOG and
Chebyshev entries of the forward rate-constant vector are recomputed
whenever either temperature or pressure differs from its sentinel. -/
theorem gas_C4_amended (C : Ctx) (th : Thermo) (s : GasState) :
    ((update_rates_T C th s).m_temp = th.T ∧ (update_rates_T C th s).m_pres = th.P)
    ∧ (th.T = s.m_temp →
        (update_rates_T C th s).m_rkcn = s.m_rkcn
        ∧ (update_rates_T C th s).m_rfn_low = s.m_rfn_low
        ∧ (update_rates_T C th s).m_rfn_high = s.m_rfn_high
        ∧ ∀ i, i < C.rs.n → C.rs.isBulk i = false → C.rs.isPlog i = false →
            C.rs.isCheb i = false →
            (update_rates_T C th s).m_rfn i = s.m_rfn i)
    ∧ (th.T ≠ s.m_temp →
        (update_rates_T C th s).m_rkcn = rkcnFun C th (C.ext.log th.standConc)
        ∧ (∀ i, i < C.rs.nFall →
            (update_rates_T C th s).m_rfn_low i = C.ext.fallLowEval th.T (C.ext.log th.T) i
            ∧ (update_rates_T C th s).m_rfn_high i
                = C.ext.fallHighEval th.T (C.ext.log th.T) i)
        ∧ ∀ i, i < C.rs.n → C.rs.isPlainRate i = true → C.rs.isBulk i = false →
            C.rs.isPlog i = false → C.rs.isCheb i = false →
            (update_rates_T C th s).m_rfn i = C.ext.ratesEval th.T (C.ext.log th.T) i)
    ∧ ((th.T ≠ s.m_temp ∨ th.P ≠ s.m_pres) → 0 < C.rs.nPlog →
        ∀ i, i < C.rs.n → C.rs.isPlog i = true → C.rs.isCheb i = false →
          (update_rates_T C th s).m_rfn i
            = C.ext.plogEval th.T (C.ext.log th.T) s.m_logP_plog i)
    ∧ ((th.T ≠ s.m_temp ∨ th.P ≠ s.m_pres) → 0 < C.rs.nCheb →
        ∀ i, i < C.rs.n → C.rs.isCheb i = true →
          (update_rates_T C th s).m_rfn i
            = C.ext.chebEval th.T (C.ext.log th.T) s.m_log10P_cheb i) := by
  refine ⟨⟨rfl, rfl⟩, ?_, ?_, ?_, ?_⟩
  · intro hT
    refine ⟨?_, ?_, ?_, ?_⟩
    · show (if th.T ≠ s.m_temp then _ else s.m_rkcn) = s.m_rkcn
      rw [if_neg (by simp [hT])]
    · funext i
      show (if th.T ≠ s.m_temp ∧ i < C.rs.nFall then _ else s.m_rfn_low i) = s.m_rfn_low i
      simp [hT]
    · funext i
      show (if th.T ≠ s.m_temp ∧ i < C.rs.nFall then _ else s.m_rfn_high i) = s.m_rfn_high i
      simp [hT]
    · intro i hi hb hp hc
      show (if (th.T ≠ s.m_temp ∨ th.P ≠ s.m_pres) ∧ 0 < C.rs.nCheb
              ∧ i < C.rs.n ∧ C.rs.isCheb i = true
            then _ else _) = s.m_rfn i
      simp [hT, hb, hp, hc]
  · intro hT
    refine ⟨?_, ?_, ?_⟩
    · show (if th.T ≠ s.m_temp then rkcnFun C th (C.ext.log th.standConc) else _)
          = rkcnFun C th (C.ext.log th.standConc)
      rw [if_pos hT]
    · intro i hi
      constructor
      · show (if th.T ≠ s.m_temp ∧ i < C.rs.nFall
              then C.ext.fallLowEval th.T (C.ext.log th.T) i else _)
            = C.ext.fallLowEval th.T (C.ext.log th.T) i
        rw [if_pos ⟨hT, hi⟩]
      · show (if th.T ≠ s.m_temp ∧ i < C.rs.nFall
              then C.ext.fallHighEval th.T (C.ext.log th.T) i else _)
            = C.ext.fallHighEval th.T (C.ext.log th.T) i
        rw [if_pos ⟨hT, hi⟩]
    · intro i hi hpl hb hp hc
      show (if (th.T ≠ s.m_temp ∨ th.P ≠ s.m_pres) ∧ 0 < C.rs.nCheb
              ∧ i < C.rs.n ∧ C.rs.isCheb i = true
            then _ else _) = C.ext.ratesEval th.T (C.ext.log th.T) i
      simp [hT, hi, hpl, hb, hp, hc]
  · intro hTP hnp i hi hp hc
    show (if (th.T ≠ s.m_temp ∨ th.P ≠ s.m_pres) ∧ 0 < C.rs.nCheb
            ∧ i < C.rs.n ∧ C.rs.isCheb i = true
          then _ else _) = C.ext.plogEval th.T (C.ext.log th.T) s.m_logP_plog i
    simp [hTP, hnp, hi, hp, hc]
  · intro hTP hnc i hi hc
    show (if (th.T ≠ s.m_temp ∨ th.P ≠ s.m_pres) ∧ 0 < C.rs.nCheb
            ∧ i < C.rs.n ∧ C.rs.isCheb i = true
          then C.ext.chebEval th.T (C.ext.log th.T) s.m_log10P_cheb i else _)
        = C.ext.chebEval th.T (C.ext.log th.T) s.m_log10P_cheb i
    rw [if_pos ⟨hTP, hnc, hi, hc⟩]

theorem gas_C4_witness :
    th4.T = s4.m_temp ∧ th4.P ≠ s4.m_pres ∧ 0 < C0.rs.n
    ∧ C0.rs.isBulk 0 = false ∧ C0.rs.isPlog 0 = false ∧ C0.rs.isCheb 0 = false
    ∧ (update_rates_T C0 th4 s4).m_rfn_low = s4.m_rfn_low
    ∧ (update_rates_T C0 th4 s4).m_rfn 0 = s4.m_rfn 0
    ∧ th0.T ≠ gs0.m_temp ∧ C0.rs.isPlainRate 0 = true
    ∧ (update_rates_T C0 th0 gs0).m_rfn 0 = C0.ext.ratesEval th0.T (C0.ext.log th0.T) 0
    ∧ 0 < CP.rs.nPlog ∧ CP.rs.isPlog 0 = true
    ∧ (update_rates_T CP th4 s4).m_rfn 0
        = CP.ext.plogEval th4.T (CP.ext.log th4.T) s4.m_logP_plog 0
    ∧ 0 < CE.rs.nCheb ∧ CE.rs.isCheb 0 = true
    ∧ (update_rates_T CE th0 gs0).m_rfn 0
        = CE.ext.chebEval th0.T (CE.ext.log th0.T) gs0.m_log10P_cheb 0 :=
  ⟨by decide, by decide, by decide, by decide, by decide, by decide,
    ((gas_C4_amended C0 th4 s4).2.1 (by decide)).2.1,
    ((gas_C4_amended C0 th4 s4).2.1 (by decide)).2.2.2 0
      (by decide) (by decide) (by decide) (by decide),
    by decide, by decide,
    ((gas_C4_amended C0 th0 gs0).2.2.1 (by decide)).2.2 0
      (by decide) (by decide) (by decide) (by decide) (by decide),
    by decide, by decide,
    (gas_C4_amended CP th4 s4).2.2.2.1 (Or.inr (by decide)) (by decide) 0
      (by decide) (by decide) (by decide),
    by decide, by decide,
    (gas_C4_amended CE th0 gs0).2.2.2.2 (Or.inl (by decide)) (by decide) 0
      (by decide) (by decide)⟩

/-! ### Claim C5 (corrected) -/

/-- C5 counterexample: a structural mutation through `modifyReaction`
leaves the cached temperature sentinel exactly where it was (500); the
quantity moved by the fixed nonzero offset is the pressure sentinel. -/
theorem gas_C5_counterexample :
    modifyReaction true RxnKind.elementaryLegacy s5 = Except.ok (invalidateCache s5)
    ∧ s5.m_temp = 500
    ∧ (invalidateCache s5).m_temp = 500
    ∧ (invalidateCache s5).m_pres = s5.m_pres + 13579 / 100000 :=
  ⟨rfl, rfl, rfl, rfl⟩

/-- C5 (amended): every structural mutation through `modifyReaction`
(when it succeeds) invalidates the caches by clearing the
rate-of-progress validity flag and by forcing the cached PRESSURE
sentinel away from its last-evaluated value by the fixed nonzero offset
`0.13579`; the temperature sentinel is left unchanged.  Consequently a
subsequent evaluation at the unchanged thermodynamic state fails the
exact `(T, P)` cache comparison on the pressure component. -/
theorem gas_C5_amended (u : Bool) (k : RxnKind) (s t : GasState)
    (h : modifyReaction u k s = Except.ok t) :
    t.m_temp = s.m_temp
    ∧ t.m_pres = s.m_pres + 13579 / 100000
    ∧ t.m_pres ≠ s.m_pres
    ∧ t.m_ROP_ok = false
    ∧ ∀ th : Thermo, th.T = s.m_temp → th.P = s.m_pres →
        (th.T ≠ t.m_temp ∨ th.P ≠ t.m_pres) := by
  have hoff : s.m_pres + 13579 / 100000 ≠ s.m_pres := by
    intro hEq
    have h0 : (13579 : ℚ) / 100000 = 0 := by
      have := add_right_eq_self.mp hEq
      exact this
    norm_num at h0
  have ht : t = invalidateCache s := by
    cases u with
    | false => exact (Except.ok.inj h).symm
    | true =>
        cases k with
        | elementaryLegacy => exact (Except.ok.inj h).symm
        | threeBodyLegacy => exact (Except.ok.inj h).symm
        | falloffLegacy => exact (Except.ok.inj h).symm
        | chemActLegacy => exact (Except.ok.inj h).symm
        | plogLegacy => exact (Except.ok.inj h).symm
        | chebyshevLegacy => exact (Except.ok.inj h).symm
        | unknownLegacy => exact absurd h (by simp [modifyReaction])
  subst ht
  refine ⟨rfl, rfl, hoff, rfl, ?_⟩
  intro th h1 h2
  right
  rw [h2]
  exact fun hEq => hoff hEq.symm

theorem gas_C5_witness :
    modifyReaction true RxnKind.threeBodyLegacy s5 = Except.ok (invalidateCache s5)
    ∧ (invalidateCache s5).m_temp = s5.m_temp
    ∧ (invalidateCache s5).m_pres = s5.m_pres + 13579 / 100000
    ∧ (invalidateCache s5).m_pres ≠ s5.m_pres
    ∧ (invalidateCache s5).m_ROP_ok = false
    ∧ th5.T = s5.m_temp ∧ th5.P = s5.m_pres
    ∧ (th5.T ≠ (invalidateCache s5).m_temp ∨ th5.P ≠ (invalidateCache s5).m_pres) := by
  have h : modifyReaction true RxnKind.threeBodyLegacy s5 = Except.ok (invalidateCache s5) :=
    rfl
  have hm := gas_C5_amended true RxnKind.threeBodyLegacy s5 (invalidateCache s5) h
  exact ⟨h, hm.1, hm.2.1, hm.2.2.1, hm.2.2.2.1, by decide, rfl,
    hm.2.2.2.2 th5 (by decide) rfl⟩

/-! ### Claim C6 -/

/-- C6: an evaluation (`updateROP`) completes successfully exactly when
every checked quantity — the reduced pressures of the falloff reactions,
and each reaction's forward rate constant, forward rate of progress and
reverse rate of progress — passes the finiteness check; and whenever it
aborts, the fatal error names the offending vector (`pr`, `m_rfn`,
`m_ropf` or `m_ropr`) and the index of the non-finite entry in it. -/
theorem gas_C6 (C : Ctx) (th : Thermo) (s : GasState) :
    ((∃ t, updateROP C th s = Except.ok t) ↔
      ((∀ i, i < C.rs.nFall → finB (prVal C (stateCT C th s) i) = true)
        ∧ ∀ i, i < C.rs.n →
            (finB ((stateCT C th s).m_rfn i) = true
              ∧ finB (ropfStage C (stateCT C th s) i) = true
              ∧ finB (roprStage C (stateCT C th s) i) = true)))
    ∧ ∀ e, updateROP C th s = Except.error e →
        (∃ i, i < C.rs.nFall
            ∧ e = CtErr.notFinite .processFalloffReactions .pr i
            ∧ finB (prVal C (stateCT C th s) i) = false)
          ∨ (∃ i, i < C.rs.n
            ∧ ((e = CtErr.notFinite .updateROP .rfn i
                  ∧ finB ((stateCT C th s).m_rfn i) = false)
              ∨ (e = CtErr.notFinite .updateROP .ropf i
                  ∧ finB (ropfStage C (stateCT C th s) i) = false)
              ∨ (e = CtErr.notFinite .updateROP .ropr i
                  ∧ finB (roprStage C (stateCT C th s) i) = false))) := by
  constructor
  · constructor
    · rintro ⟨t, ht⟩
      rw [updateROP_eq] at ht
      cases hpr : prFirstBad C (stateCT C th s) with
      | some i => rw [hpr] at ht; exact absurd ht (by simp)
      | none =>
          rw [hpr] at ht
          cases hrb : ropFirstBad C (stateCT C th s) with
          | some vi => rw [hrb] at ht; exact absurd ht (by simp)
          | none =>
              constructor
              · intro i hi
                unfold prFirstBad at hpr
                have h1 := List.find?_eq_none.mp hpr i (List.mem_range.mpr hi)
                simpa using h1
              · intro i hi
                unfold ropFirstBad at hrb
                have h2 := list_findSome?_eq_none.mp hrb i (List.mem_range.mpr hi)
                refine ⟨?_, ?_, ?_⟩
                · cases hb : finB ((stateCT C th s).m_rfn i) with
                  | true => rfl
                  | false => rw [hb] at h2; exact absurd h2 (by simp)
                · cases hb : finB ((stateCT C th s).m_rfn i) with
                  | false => rw [hb] at h2; exact absurd h2 (by simp)
                  | true =>
                      rw [hb] at h2
                      cases hb2 : finB (ropfStage C (stateCT C th s) i) with
                      | true => rfl
                      | false => rw [hb2] at h2; exact absurd h2 (by simp)
                · cases hb : finB ((stateCT C th s).m_rfn i) with
                  | false => rw [hb] at h2; exact absurd h2 (by simp)
                  | true =>
                      rw [hb] at h2
                      cases hb2 : finB (ropfStage C (stateCT C th s) i) with
                      | false => rw [hb2] at h2; exact absurd h2 (by simp)
                      | true =>
                          rw [hb2] at h2
                          cases hb3 : finB (roprStage C (stateCT C th s) i) with
                          | true => rfl
                          | false => rw [hb3] at h2; exact absurd h2 (by simp)
    · rintro ⟨hpr', hrop'⟩
      refine ⟨okState C (stateCT C th s), ?_⟩
      rw [updateROP_eq]
      have hpr : prFirstBad C (stateCT C th s) = none := by
        unfold prFirstBad
        refine List.find?_eq_none.mpr ?_
        intro i hi
        simp [hpr' i (List.mem_range.mp hi)]
      have hrb : ropFirstBad C (stateCT C th s) = none := by
        unfold ropFirstBad
        refine list_findSome?_eq_none.mpr ?_
        intro i hi
        obtain ⟨ha, hb, hc⟩ := hrop' i (List.mem_range.mp hi)
        simp [ha, hb, hc]
      rw [hpr, hrb]
  · intro e he
    rw [updateROP_eq] at he
    cases hpr : prFirstBad C (stateCT C th s) with
    | some i =>
        rw [hpr] at he
        left
        have hie := (Except.error.inj he).symm
        unfold prFirstBad at hpr
        have hmem := List.mem_of_find?_eq_some hpr
        have hp := List.find?_some hpr
        refine ⟨i, List.mem_range.mp hmem, hie, ?_⟩
        simpa using hp
    | none =>
        rw [hpr] at he
        cases hrb : ropFirstBad C (stateCT C th s) with
        | none => rw [hrb] at he; exact absurd he (by simp)
        | some vi =>
            rw [hrb] at he
            right
            have hev := (Except.error.inj he).symm
            unfold ropFirstBad at hrb
            obtain ⟨i, hmem, hfi⟩ := list_findSome?_some hrb
            refine ⟨i, List.mem_range.mp hmem, ?_⟩
            cases hb : finB ((stateCT C th s).m_rfn i) with
            | false =>
                rw [hb] at hfi
                simp only [Bool.not_false, if_pos] at hfi
                left
                have hvi := (Option.some.inj hfi).symm
                subst hvi
                exact ⟨hev, rfl⟩
            | true =>
                rw [hb] at hfi
                simp only [Bool.not_true, Bool.false_eq_true, if_false] at hfi
                cases hb2 : finB (ropfStage C (stateCT C th s) i) with
                | false =>
                    rw [hb2] at hfi
                    simp only [Bool.not_false, if_pos] at hfi
                    right; left
                    have hvi := (Option.some.inj hfi).symm
                    subst hvi
                    exact ⟨hev, rfl⟩
                | true =>
                    rw [hb2] at hfi
                    simp only [Bool.not_true, Bool.false_eq_true, if_false] at hfi
                    cases hb3 : finB (roprStage C (stateCT C th s) i) with
                    | false =>
                        rw [hb3] at hfi
                        simp only [Bool.not_false, if_pos] at hfi
                        right; right
                        have hvi := (Option.some.inj hfi).symm
                        subst hvi
                        exact ⟨hev, rfl⟩
                    | true =>
                        rw [hb3] at hfi
                        simp at hfi

theorem gas_C6_witness :
    updateROP CBad th0 gs0
        = Except.error (CtErr.notFinite .updateROP .rfn 0)
    ∧ ((∃ i, i < CBad.rs.nFall
          ∧ CtErr.notFinite .updateROP .rfn 0
              = CtErr.notFinite .processFalloffReactions .pr i
          ∧ finB (prVal CBad (stateCT CBad th0 gs0) i) = false)
        ∨ (∃ i, i < CBad.rs.n
          ∧ ((CtErr.notFinite .updateROP .rfn 0 = CtErr.notFinite .updateROP .rfn i
                ∧ finB ((stateCT CBad th0 gs0).m_rfn i) = false)
            ∨ (CtErr.notFinite .updateROP .rfn 0 = CtErr.notFinite .updateROP .ropf i
                ∧ finB (ropfStage CBad (stateCT CBad th0 gs0) i) = false)
            ∨ (CtErr.notFinite .updateROP .rfn 0 = CtErr.notFinite .updateROP .ropr i
                ∧ finB (roprStage CBad (stateCT CBad th0 gs0) i) = false)))) := by
  have hrfn : (stateCT CBad th0 gs0).m_rfn 0 = BigNumber := by
    norm_num [stateCT, update_rates_T, update_rates_C, CBad, rs0, ext0, th0, gs0]
  have hrb : ropFirstBad CBad (stateCT CBad th0 gs0) = some (VecName.rfn, 0) := by
    unfold ropFirstBad
    rw [show List.range CBad.rs.n = [0] from rfl]
    simp [List.findSome?, hrfn, show finB BigNumber = false from by decide]
  have he : updateROP CBad th0 gs0
      = Except.error (CtErr.notFinite .updateROP .rfn 0) := by
    rw [updateROP_eq, prFirstBad_zero CBad _ rfl, hrb]
  exact ⟨he, (gas_C6 CBad th0 gs0).2 _ he⟩

/-- The final `skip-falloff` flag produced by the throw-or-proceed tail of
`setJacobianSettings` is true in both branches. -/
theorem flag_after_guard (s4 s5 : GasState) (err : CtErr)
    (h5 : s5.m_jac_skip_falloff = s4.m_jac_skip_falloff) :
    ((if s4.m_jac_skip_falloff = false
      then ({ s4 with m_jac_skip_falloff := true }, some err)
      else (s5, none)) : GasState × Option CtErr).1.m_jac_skip_falloff = true := by
  cases hb : s4.m_jac_skip_falloff with
  | false => rfl
  | true =>
      show s5.m_jac_skip_falloff = true
      rw [h5, hb]

/-! ### Claim C8 -/

/-- C8: the Jacobian `skip-falloff` option defaults to true (the
constructor applies an empty settings bag); after any call to
`setJacobianSettings` the flag is true; and any call that attempts to set
it to false raises the fatal not-implemented error at the call site while
the flag remains true afterward. -/
theorem gas_C8 (m : JacSettingsMap) (s : GasState) :
    ((setJacobianSettings
        (JacSettingsMap.mk none none none none none) s).1.m_jac_skip_falloff = true
      ∧ (setJacobianSettings (JacSettingsMap.mk none none none none none) s).2 = none)
    ∧ (setJacobianSettings m s).1.m_jac_skip_falloff = true
    ∧ (m.skipFalloff = some false →
        (setJacobianSettings m s).2
          = some (CtErr.notImplemented .setJacobianSettings)) := by
  refine ⟨⟨rfl, rfl⟩, ?_, ?_⟩
  · simp only [setJacobianSettings]
    exact flag_after_guard _ _ _ (by split <;> rfl)
  · intro hsf
    simp [setJacobianSettings, hsf]

theorem gas_C8_witness :
    m8.skipFalloff = some false
    ∧ (setJacobianSettings m8 gs0).1.m_jac_skip_falloff = true
    ∧ (setJacobianSettings m8 gs0).2
        = some (CtErr.notImplemented .setJacobianSettings) :=
  ⟨rfl, (gas_C8 m8 gs0).2.1, (gas_C8 m8 gs0).2.2 rfl⟩

/-! ### Claim C9 -/

/-- C9: when the collection contains at least one reaction installed
through the deprecated/legacy construction path, every forward, reverse
and net Jacobian query with respect to temperature or concentration (and
the rate-constant temperature derivative) raises the descriptive
legacy-unsupported fatal error before computing any derivative values. -/
theorem gas_C9 (C : Ctx) (th : Thermo) (s : GasState) (h : C.rs.legacy ≠ []) :
    fwdRateConstants_ddT C th s
        = Except.error (CtErr.legacyUnsupported .fwdRateConstants_ddT)
    ∧ fwdRatesOfProgress_ddT C th s
        = Except.error (CtErr.legacyUnsupported .fwdRatesOfProgress_ddT)
    ∧ revRatesOfProgress_ddT C th s
        = Except.error (CtErr.legacyUnsupported .revRatesOfProgress_ddT)
    ∧ netRatesOfProgress_ddT C th s
        = Except.error (CtErr.legacyUnsupported .netRatesOfProgress_ddT)
    ∧ fwdRatesOfProgress_ddC C th s
        = Except.error (CtErr.legacyUnsupported .fwdRatesOfProgress_ddC)
    ∧ revRatesOfProgress_ddC C th s
        = Except.error (CtErr.legacyUnsupported .revRatesOfProgress_ddC)
    ∧ netRatesOfProgress_ddC C th s
        = Except.error (CtErr.legacyUnsupported .netRatesOfProgress_ddC) := by
  have hc : ∀ name, checkLegacyRates C name
      = Except.error (CtErr.legacyUnsupported name) := by
    intro name
    unfold checkLegacyRates
    rw [if_pos h]
  refine ⟨?_, ?_, ?_, ?_, ?_, ?_, ?_⟩ <;>
    simp [fwdRateConstants_ddT, fwdRatesOfProgress_ddT, revRatesOfProgress_ddT,
      netRatesOfProgress_ddT, fwdRatesOfProgress_ddC, revRatesOfProgress_ddC,
      netRatesOfProgress_ddC, hc]

theorem gas_C9_witness :
    CL.rs.legacy ≠ []
    ∧ fwdRateConstants_ddT CL th0 gs0
        = Except.error (CtErr.legacyUnsupported .fwdRateConstants_ddT)
    ∧ netRatesOfProgress_ddC CL th0 gs0
        = Except.error (CtErr.legacyUnsupported .netRatesOfProgress_ddC) :=
  ⟨by decide, (gas_C9 CL th0 gs0 (by decide)).1,
    (gas_C9 CL th0 gs0 (by decide)).2.2.2.2.2.2⟩

/-! ### Claim C10 -/

/-- C10: the equilibrium-constant query returns
`Kc_i = exp(−ΔG°_i/RT + Δn_i·ln C°)` for every reaction, and as a
postcondition sets the cached temperature sentinel to `0.0`, a value
unequal to every valid (positive) temperature, so the immediately
following ordinary evaluation recomputes the temperature-dependent cached
quantities (in particular `m_rkcn`) instead of taking the cache-hit
path. -/
theorem gas_C10 (C : Ctx) (th : Thermo) (s : GasState) :
    (∀ i, i < C.rs.n →
      (getEquilibriumConstants C th s).2 i
        = C.ext.exp (-(C.ext.delta th.grt i) * (1 / th.RT)
            + C.rs.dn i * (C.ext.log th.standConc)))
    ∧ (getEquilibriumConstants C th s).1.m_temp = 0
    ∧ (∀ T' : ℚ, 0 < T' → T' ≠ (getEquilibriumConstants C th s).1.m_temp)
    ∧ (∀ th' : Thermo, 0 < th'.T →
        (update_rates_T C th' (getEquilibriumConstants C th s).1).m_rkcn
          = rkcnFun C th' (C.ext.log th'.standConc)) := by
  refine ⟨?_, rfl, ?_, ?_⟩
  · intro i hi
    show (getEquilibriumConstants C th s).2 i = _
    unfold getEquilibriumConstants
    simp only [if_pos hi]
    rfl
  · intro T' hT'
    exact ne_of_gt hT'
  · intro th' hT'
    show (if th'.T ≠ (getEquilibriumConstants C th s).1.m_temp
          then rkcnFun C th' (C.ext.log th'.standConc)
          else (getEquilibriumConstants C th s).1.m_rkcn)
        = rkcnFun C th' (C.ext.log th'.standConc)
    rw [if_pos]
    exact ne_of_gt hT'

theorem gas_C10_witness :
    0 < C0.rs.n
    ∧ (getEquilibriumConstants C0 th0 gs0).2 0
        = C0.ext.exp (-(C0.ext.delta th0.grt 0) * (1 / th0.RT)
            + C0.rs.dn 0 * (C0.ext.log th0.standConc))
    ∧ (0:ℚ) < th0.T
    ∧ (update_rates_T C0 th0 (getEquilibriumConstants C0 th0 gs0).1).m_rkcn
        = rkcnFun C0 th0 (C0.ext.log th0.standConc) :=
  ⟨by decide, (gas_C10 C0 th0 gs0).1 0 (by decide), by decide,
    (gas_C10 C0 th0 gs0).2.2.2 th0 (by decide)⟩

end Cantera
